import Mathlib

/-!
Shallow embedding of `src/tools/aconfig/src/codegen_java.rs` (Java code
generation for aconfig feature flags), together with the small external
interfaces it consumes.  The data model, the per-flag element construction
and the generation pipeline are translated from the source; the pieces the
source pulls in from modules that are not part of the given sources
(`cache.rs`, `aconfig.rs`, `codegen.rs`, the TinyTemplate engine and the
three template files) are modelled from the specification and say so in
their doc comments.
-/

namespace Aconfig

/-- Modelled from the spec: `FlagState` is declared in `aconfig.rs`, which
is not among the given sources.  Per the spec (§3) it is a two-valued
enumeration with values Enabled and Disabled. -/
inductive FlagState where
  | Enabled
  | Disabled
  deriving DecidableEq

/-- Modelled from the spec: `Permission` is declared in `aconfig.rs`, which
is not among the given sources.  Per the spec (§3) it is a two-valued
enumeration with values ReadOnly and ReadWrite. -/
inductive Permission where
  | ReadOnly
  | ReadWrite
  deriving DecidableEq

/-- Modelled from the spec: `Item` is declared in `cache.rs`, which is not
among the given sources.  Per the spec (§3) a flag record carries a
namespace, a name, an enablement state and a permission; the fields are the
ones `codegen_java.rs` reads (`item.namespace`, `item.name`, `item.state`,
`item.permission`).  `namespace` is a Lean keyword, hence the underscore. -/
structure Item where
  namespace_ : String
  name : String
  state : FlagState
  permission : Permission
  deriving DecidableEq

/-- Modelled from the spec: `Cache` is declared in `cache.rs`, which is not
among the given sources.  Per the spec (§6) the Flag Model exposes a
package identifier (`cache.package()`) and an iterable, ordered collection
of flag records (`cache.iter()`). -/
structure Cache where
  package : String
  items : List Item
  deriving DecidableEq

/-- Embedding of `ClassElement` from `codegen_java.rs`. -/
structure ClassElement where
  default_value : String
  device_config_namespace : String
  device_config_flag : String
  flag_name_constant_suffix : String
  is_read_write : Bool
  method_name : String
  deriving DecidableEq

/-- Embedding of `Context` from `codegen_java.rs`. -/
structure Context where
  package_name : String
  is_read_write : Bool
  class_elements : List ClassElement
  deriving DecidableEq

/-- Embedding of `OutputFile` (declared in `commands.rs`): rendered file
contents paired with a relative path.  A `PathBuf` is represented by its
list of path components. -/
structure OutputFile where
  contents : String
  path : List String
  deriving DecidableEq

/-- Embedding of Rust's `char::to_ascii_uppercase`: an ASCII lowercase
letter is mapped to the corresponding uppercase letter, every other
character (including every non-ASCII character) is unchanged. -/
def asciiUpper (c : Char) : Char :=
  if 'a' ≤ c ∧ c ≤ 'z' then Char.ofNat (c.toNat - 32) else c

/-- Embedding of Rust's `str::to_ascii_uppercase`: apply `asciiUpper` to
every character.  (Rust folds byte by byte, but an ASCII lowercase byte in
UTF-8 is always a whole character, so per-character folding agrees.) -/
def to_ascii_uppercase (s : String) : String :=
  String.mk (s.data.map asciiUpper)

/-- Embedding of Rust's `str::split` with a single-character separator, on
the character list: the separator-delimited chunks, so that the empty list
yields one empty chunk, as in Rust. -/
def split_chars (sep : Char) : List Char → List (List Char)
  | [] => [[]]
  | c :: rest =>
      if c = sep then [] :: split_chars sep rest
      else
        match split_chars sep rest with
        | [] => [[c]]
        | chunk :: chunks => (c :: chunk) :: chunks

/-- Embedding of Rust's `str::split` with a single-character separator
(`package.split('.')` in the source). -/
def split (s : String) (sep : Char) : List String :=
  (split_chars sep s.data).map (fun chunk => String.mk chunk)

/-- Modelled from the spec: `codegen::create_device_config_ident` lives in
`codegen.rs`, which is not among the given sources.  Per the spec (§4.1),
given a package and a name it returns `package ++ "." ++ name`; both inputs
are assumed already validated (character set, non-emptiness) upstream, and
a malformed input is a contract violation that aborts generation.  The
validity check is modelled by the one concrete criterion the spec names,
non-emptiness, and a failure by `none`. -/
def create_device_config_ident (package name : String) : Option String :=
  if package = "" ∨ name = "" then none
  else some (package ++ "." ++ name)

/-- Embedding of `create_class_element` from `codegen_java.rs`.  The source
calls `.expect("values checked at cache creation time")` on the identifier
derivation, i.e. the thread panics on a contract violation; the panic is
represented by `none`. -/
def create_class_element (package : String) (item : Item) : Option ClassElement :=
  match create_device_config_ident package item.name with
  | none => none
  | some device_config_flag =>
      some
        { default_value := if item.state = FlagState.Enabled then "true" else "false"
          device_config_namespace := item.namespace_
          device_config_flag := device_config_flag
          flag_name_constant_suffix := to_ascii_uppercase item.name
          is_read_write := decide (item.permission = Permission.ReadWrite)
          method_name := item.name }

/-- Embedding of `cache.iter().map(|item| create_class_element(package, item)).collect()`
from `codegen_java.rs`: the elements are created in iteration order and the
first panic aborts the whole collection. -/
def collect_class_elements (package : String) : List Item → Option (List ClassElement)
  | [] => some []
  | item :: rest =>
      match create_class_element package item with
      | none => none
      | some el =>
          match collect_class_elements package rest with
          | none => none
          | some els => some (el :: els)

/-- Embedding of lines 28-32 of `codegen_java.rs`: build the rendering
context (package name, aggregate `is_read_write` computed with `any`, and
the class elements in iteration order).  `none` represents the panic from
`create_class_element`. -/
def build_context (cache : Cache) : Option Context :=
  match collect_class_elements cache.package cache.items with
  | none => none
  | some class_elements =>
      some
        { package_name := cache.package
          is_read_write := class_elements.any (fun el => el.is_read_write)
          class_elements := class_elements }

/-- Modelled from the spec: the TinyTemplate engine and the three template
files under `templates/` are not among the given sources.  Per the spec
(§4.3 and §9) the renderer is an external capability: registering a named
template may fail with a parse error, and rendering a registered template
against a context is a deterministic function of template and context that
may fail with a render error.  Because each of the three template texts is
a fixed compile-time constant in the source, registration is a function of
the template name alone. -/
structure TemplateEngine where
  add_template : String → Except String Unit
  render : String → Context → Except String String

/-- The fixed list `java_files` from `codegen_java.rs` line 34. -/
def java_files : List String :=
  ["Flags.java", "FeatureFlagsImpl.java", "FeatureFlags.java"]

/-- Outcome of one generation call.  `ok` and `error` are the two values
the Rust function can return (`Result<Vec<OutputFile>>`); `panic` records
an execution on which the call does not return at all (the `.expect` in
`create_class_element`), carrying the panic message. -/
inductive GenResult (α : Type) where
  | ok : α → GenResult α
  | error : String → GenResult α
  | panic : String → GenResult α
  deriving DecidableEq

/-- Embedding of the final `java_files.iter().map(...).collect::<Result<...>>()`
of `codegen_java.rs`: render each file name in order against the context,
pair the rendered text with the package-derived path, and stop at the
first render error. -/
def render_all (tt : TemplateEngine) (context : Context) (path : List String) :
    List String → Except String (List OutputFile)
  | [] => Except.ok []
  | file :: rest =>
      match tt.render file context with
      | Except.error e => Except.error e
      | Except.ok contents =>
          match render_all tt context path rest with
          | Except.error e => Except.error e
          | Except.ok files => Except.ok ({ contents := contents, path := path ++ [file] } :: files)

/-- Embedding of `generate_java_code` from `codegen_java.rs`.  The steps
follow the source in order: build the class elements and the context
(possibly panicking), register the three templates (each may fail with a
parse error), compute the package-derived path by splitting the package on
the dot, and render the three files. -/
def generate_java_code (tt : TemplateEngine) (cache : Cache) : GenResult (List OutputFile) :=
  match build_context cache with
  | none => GenResult.panic "values checked at cache creation time"
  | some context =>
      match tt.add_template "Flags.java" with
      | Except.error e => GenResult.error e
      | Except.ok _ =>
          match tt.add_template "FeatureFlagsImpl.java" with
          | Except.error e => GenResult.error e
          | Except.ok _ =>
              match tt.add_template "FeatureFlags.java" with
              | Except.error e => GenResult.error e
              | Except.ok _ =>
                  match render_all tt context (split cache.package '.') java_files with
                  | Except.error e => GenResult.error e
                  | Except.ok files => GenResult.ok files

/-- A concrete template engine on which every registration and every
render succeeds; stands in for a well-formed set of templates. -/
def tt0 : TemplateEngine where
  add_template := fun _ => Except.ok ()
  render := fun _ _ => Except.ok "rendered"

/-- A concrete template engine whose second fixed template fails to
register (a parse error at load time). -/
def tt_bad : TemplateEngine where
  add_template := fun name =>
    if name = "FeatureFlagsImpl.java" then Except.error "template parse error" else Except.ok ()
  render := fun _ _ => Except.ok "rendered"

/-- The read-only disabled flag of the spec's worked example (§8). -/
def item_ro : Item :=
  { namespace_ := "aconfig_test", name := "disabled_ro",
    state := FlagState.Disabled, permission := Permission.ReadOnly }

/-- The read-write enabled flag of the spec's worked example (§8). -/
def item_rw : Item :=
  { namespace_ := "aconfig_test", name := "enabled_rw",
    state := FlagState.Enabled, permission := Permission.ReadWrite }

/-- The spec's worked example cache (§8). -/
def cache0 : Cache :=
  { package := "com.android.aconfig.test", items := [item_ro, item_rw] }

/-- The class element generated for `item_ro`. -/
def el_ro : ClassElement :=
  { default_value := "false", device_config_namespace := "aconfig_test",
    device_config_flag := "com.android.aconfig.test.disabled_ro",
    flag_name_constant_suffix := "DISABLED_RO", is_read_write := false,
    method_name := "disabled_ro" }

/-- The class element generated for `item_rw`. -/
def el_rw : ClassElement :=
  { default_value := "true", device_config_namespace := "aconfig_test",
    device_config_flag := "com.android.aconfig.test.enabled_rw",
    flag_name_constant_suffix := "ENABLED_RW", is_read_write := true,
    method_name := "enabled_rw" }

/-- The rendering context built from `cache0`. -/
def ctx0 : Context :=
  { package_name := "com.android.aconfig.test", is_read_write := true,
    class_elements := [el_ro, el_rw] }

/-- The three output files produced from `cache0` under `tt0`. -/
def files0 : List OutputFile :=
  [{ contents := "rendered", path := ["com", "android", "aconfig", "test", "Flags.java"] },
   { contents := "rendered", path := ["com", "android", "aconfig", "test", "FeatureFlagsImpl.java"] },
   { contents := "rendered", path := ["com", "android", "aconfig", "test", "FeatureFlags.java"] }]

/-- A cache holding a flag whose name is empty, i.e. an input on which the
upstream validation contract assumed by identifier derivation is broken. -/
def bad_cache : Cache :=
  { package := "com.android.aconfig.test",
    items := [{ namespace_ := "aconfig_test", name := "",
                state := FlagState.Disabled, permission := Permission.ReadOnly }] }

/-- A second cache with the same package identifier and the same flag
records, in the same order, as `cache0`. -/
def cache0_again : Cache :=
  { package := "com.android.aconfig.test", items := [item_ro, item_rw] }

/-- Every field of a successfully created class element, read off from
`create_class_element`. -/
theorem create_class_element_fields (package : String) (item : Item) (el : ClassElement)
    (h : create_class_element package item = some el) :
    el.default_value = (if item.state = FlagState.Enabled then "true" else "false") ∧
    el.device_config_namespace = item.namespace_ ∧
    el.device_config_flag = package ++ "." ++ item.name ∧
    el.flag_name_constant_suffix = to_ascii_uppercase item.name ∧
    el.is_read_write = decide (item.permission = Permission.ReadWrite) ∧
    el.method_name = item.name := by
  unfold create_class_element at h
  cases hid : create_device_config_ident package item.name with
  | none => rw [hid] at h; exact absurd h (by simp)
  | some flag =>
      rw [hid] at h
      have hflag : flag = package ++ "." ++ item.name := by
        unfold create_device_config_ident at hid
        split at hid
        · exact absurd hid (by simp)
        · simp only [Option.some.injEq] at hid
          exact hid.symm
      simp only [Option.some.injEq] at h
      subst h
      simp [hflag]

/-- A successful element collection relates items to elements pointwise, in
order. -/
theorem collect_forall2 (package : String) (items : List Item) :
    ∀ els : List ClassElement,
      collect_class_elements package items = some els →
      List.Forall₂ (fun item el => create_class_element package item = some el) items els := by
  induction items with
  | nil =>
      intro els h
      unfold collect_class_elements at h
      simp only [Option.some.injEq] at h
      subst h
      exact List.Forall₂.nil
  | cons item rest ih =>
      intro els h
      unfold collect_class_elements at h
      cases hel : create_class_element package item with
      | none => rw [hel] at h; exact absurd h (by simp)
      | some el =>
          rw [hel] at h
          cases hrest : collect_class_elements package rest with
          | none => rw [hrest] at h; exact absurd h (by simp)
          | some els' =>
              rw [hrest] at h
              simp only [Option.some.injEq] at h
              subst h
              exact List.Forall₂.cons hel (ih els' hrest)

/-- Over a pointwise-related pair of lists, some element is marked
read-write exactly when some item has the ReadWrite permission. -/
theorem any_read_write_iff (package : String) (items : List Item) (els : List ClassElement)
    (h : List.Forall₂ (fun item el => create_class_element package item = some el) items els) :
    (els.any (fun el => el.is_read_write) = true ↔
      ∃ item ∈ items, item.permission = Permission.ReadWrite) := by
  induction h with
  | nil => simp
  | @cons item el items' els' hrel hrest ih =>
      have hrw := (create_class_element_fields package item el hrel).2.2.2.2.1
      simp [List.any_cons, hrw, ih]

/-- Shape of a successfully built context. -/
theorem build_context_some (cache : Cache) (ctx : Context)
    (h : build_context cache = some ctx) :
    ∃ els, collect_class_elements cache.package cache.items = some els ∧
      ctx = { package_name := cache.package
              is_read_write := els.any (fun el => el.is_read_write)
              class_elements := els } := by
  unfold build_context at h
  cases hc : collect_class_elements cache.package cache.items with
  | none => rw [hc] at h; exact absurd h (by simp)
  | some els =>
      rw [hc] at h
      simp only [Option.some.injEq] at h
      exact ⟨els, rfl, h.symm⟩

/-- A successful full render of the three fixed file names yields exactly
the three output files, in order, with the fixed names appended to the
package-derived path. -/
theorem render_all_ok (tt : TemplateEngine) (context : Context) (path : List String)
    (files : List OutputFile)
    (h : render_all tt context path java_files = Except.ok files) :
    ∃ c1 c2 c3,
      tt.render "Flags.java" context = Except.ok c1 ∧
      tt.render "FeatureFlagsImpl.java" context = Except.ok c2 ∧
      tt.render "FeatureFlags.java" context = Except.ok c3 ∧
      files =
        [{ contents := c1, path := path ++ ["Flags.java"] },
         { contents := c2, path := path ++ ["FeatureFlagsImpl.java"] },
         { contents := c3, path := path ++ ["FeatureFlags.java"] }] := by
  unfold java_files at h
  unfold render_all at h
  cases h1 : tt.render "Flags.java" context with
  | error e => rw [h1] at h; simp at h
  | ok c1 =>
      rw [h1] at h
      unfold render_all at h
      cases h2 : tt.render "FeatureFlagsImpl.java" context with
      | error e => rw [h2] at h; simp at h
      | ok c2 =>
          rw [h2] at h
          unfold render_all at h
          cases h3 : tt.render "FeatureFlags.java" context with
          | error e => rw [h3] at h; simp at h
          | ok c3 =>
              rw [h3] at h
              unfold render_all at h
              simp only [Option.some.injEq] at h
              refine ⟨c1, c2, c3, rfl, rfl, rfl, ?_⟩
              simp at h
              exact h.symm

/-- A failed render run names a template whose rendering produced exactly
the returned error. -/
theorem render_all_error (tt : TemplateEngine) (context : Context) (path : List String)
    (names : List String) (e : String)
    (h : render_all tt context path names = Except.error e) :
    ∃ name ∈ names, tt.render name context = Except.error e := by
  induction names with
  | nil => unfold render_all at h; exact absurd h (by simp)
  | cons file rest ih =>
      unfold render_all at h
      cases h1 : tt.render file context with
      | error e1 =>
          rw [h1] at h
          simp only [Except.error.injEq] at h
          exact ⟨file, by simp, by rw [h1, h]⟩
      | ok contents =>
          rw [h1] at h
          cases h2 : render_all tt context path rest with
          | error e2 =>
              rw [h2] at h
              simp only [Except.error.injEq] at h
              obtain ⟨name, hmem, hr⟩ := ih (h ▸ h2)
              exact ⟨name, by simp [hmem], hr⟩
          | ok files => rw [h2] at h; exact absurd h (by simp)

/-- Converse direction: when each of the three fixed templates renders
successfully, the full render returns exactly the three output files. -/
theorem render_all_ok_intro (tt : TemplateEngine) (context : Context) (path : List String)
    (c1 c2 c3 : String)
    (h1 : tt.render "Flags.java" context = Except.ok c1)
    (h2 : tt.render "FeatureFlagsImpl.java" context = Except.ok c2)
    (h3 : tt.render "FeatureFlags.java" context = Except.ok c3) :
    render_all tt context path java_files =
      Except.ok
        [{ contents := c1, path := path ++ ["Flags.java"] },
         { contents := c2, path := path ++ ["FeatureFlagsImpl.java"] },
         { contents := c3, path := path ++ ["FeatureFlags.java"] }] := by
  unfold java_files
  unfold render_all
  rw [h1]
  dsimp only
  unfold render_all
  rw [h2]
  dsimp only
  unfold render_all
  rw [h3]
  dsimp only
  unfold render_all
  rfl

/-- A successful generation run means: the context was built, all three
templates were registered, and the full render succeeded. -/
theorem generate_ok_elim (tt : TemplateEngine) (cache : Cache) (files : List OutputFile)
    (h : generate_java_code tt cache = GenResult.ok files) :
    ∃ context, build_context cache = some context ∧
      tt.add_template "Flags.java" = Except.ok () ∧
      tt.add_template "FeatureFlagsImpl.java" = Except.ok () ∧
      tt.add_template "FeatureFlags.java" = Except.ok () ∧
      render_all tt context (split cache.package '.') java_files = Except.ok files := by
  unfold generate_java_code at h
  cases hb : build_context cache with
  | none => rw [hb] at h; exact absurd h (by simp)
  | some context =>
      rw [hb] at h
      cases h1 : tt.add_template "Flags.java" with
      | error e => rw [h1] at h; exact absurd h (by simp)
      | ok u =>
          cases u
          rw [h1] at h
          cases h2 : tt.add_template "FeatureFlagsImpl.java" with
          | error e => rw [h2] at h; exact absurd h (by simp)
          | ok u =>
              cases u
              rw [h2] at h
              cases h3 : tt.add_template "FeatureFlags.java" with
              | error e => rw [h3] at h; exact absurd h (by simp)
              | ok u =>
                  cases u
                  rw [h3] at h
                  dsimp only at h
                  cases hr : render_all tt context (split cache.package '.') java_files with
                  | error e => rw [hr] at h; exact absurd h (by simp)
                  | ok fs =>
                      rw [hr] at h
                      simp only [GenResult.ok.injEq] at h
                      exact ⟨context, rfl, rfl, rfl, rfl, h ▸ hr⟩

/-- An error result of a generation run is the verbatim error produced by
the template engine itself, either while registering or while rendering one
of the three fixed templates. -/
theorem generate_error_elim (tt : TemplateEngine) (cache : Cache) (e : String)
    (h : generate_java_code tt cache = GenResult.error e) :
    ∃ context, build_context cache = some context ∧
      ((∃ name ∈ java_files, tt.add_template name = Except.error e) ∨
       (∃ name ∈ java_files, tt.render name context = Except.error e)) := by
  unfold generate_java_code at h
  cases hb : build_context cache with
  | none => rw [hb] at h; exact absurd h (by simp)
  | some context =>
      rw [hb] at h
      refine ⟨context, rfl, ?_⟩
      cases h1 : tt.add_template "Flags.java" with
      | error e1 =>
          rw [h1] at h
          simp only [GenResult.error.injEq] at h
          exact Or.inl ⟨"Flags.java", by simp [java_files], by rw [h1, h]⟩
      | ok u =>
          cases u
          rw [h1] at h
          cases h2 : tt.add_template "FeatureFlagsImpl.java" with
          | error e2 =>
              rw [h2] at h
              simp only [GenResult.error.injEq] at h
              exact Or.inl ⟨"FeatureFlagsImpl.java", by simp [java_files], by rw [h2, h]⟩
          | ok u =>
              cases u
              rw [h2] at h
              cases h3 : tt.add_template "FeatureFlags.java" with
              | error e3 =>
                  rw [h3] at h
                  simp only [GenResult.error.injEq] at h
                  exact Or.inl ⟨"FeatureFlags.java", by simp [java_files], by rw [h3, h]⟩
              | ok u =>
                  cases u
                  rw [h3] at h
                  dsimp only at h
                  cases hr : render_all tt context (split cache.package '.') java_files with
                  | error e4 =>
                      rw [hr] at h
                      simp only [GenResult.error.injEq] at h
                      exact Or.inr (render_all_error tt context _ java_files e (h ▸ hr))
                  | ok fs => rw [hr] at h; exact absurd h (by simp)

/-- When the context is built but registering some fixed template fails,
the run returns an error and the result does not depend on the render
function at all: no rendering is needed to produce it. -/
theorem generate_add_fail (tt : TemplateEngine) (cache : Cache) (ctx : Context)
    (hb : build_context cache = some ctx)
    (hfail : ∃ name ∈ java_files, ∃ e, tt.add_template name = Except.error e) :
    (∃ e, generate_java_code tt cache = GenResult.error e) ∧
    ∀ r, generate_java_code { add_template := tt.add_template, render := r } cache
          = generate_java_code tt cache := by
  have hproj : ∀ r : String → Context → Except String String,
      ({ add_template := tt.add_template, render := r } : TemplateEngine).add_template
        = tt.add_template := fun _ => rfl
  cases h1 : tt.add_template "Flags.java" with
  | error e =>
      have hgen : generate_java_code tt cache = GenResult.error e := by
        unfold generate_java_code
        rw [hb, h1]
      refine ⟨⟨e, hgen⟩, fun r => ?_⟩
      rw [hgen]
      unfold generate_java_code
      rw [hb, hproj r, h1]
  | ok u =>
      cases u
      cases h2 : tt.add_template "FeatureFlagsImpl.java" with
      | error e =>
          have hgen : generate_java_code tt cache = GenResult.error e := by
            unfold generate_java_code
            rw [hb, h1, h2]
          refine ⟨⟨e, hgen⟩, fun r => ?_⟩
          rw [hgen]
          unfold generate_java_code
          rw [hb, hproj r, h1, h2]
      | ok u =>
          cases u
          cases h3 : tt.add_template "FeatureFlags.java" with
          | error e =>
              have hgen : generate_java_code tt cache = GenResult.error e := by
                unfold generate_java_code
                rw [hb, h1, h2, h3]
              refine ⟨⟨e, hgen⟩, fun r => ?_⟩
              rw [hgen]
              unfold generate_java_code
              rw [hb, hproj r, h1, h2, h3]
          | ok u =>
              cases u
              obtain ⟨name, hmem, e, hadd⟩ := hfail
              simp only [java_files, List.mem_cons, List.mem_singleton] at hmem
              rcases hmem with hm | hm | hm | hm
              · subst hm; rw [h1] at hadd; exact absurd hadd (by simp)
              · subst hm; rw [h2] at hadd; exact absurd hadd (by simp)
              · subst hm; rw [h3] at hadd; exact absurd hadd (by simp)
              · exact absurd hm (by simp)

/-- The only way a generation run panics is the `.expect` on identifier
derivation, i.e. a failed context build. -/
theorem generate_panic_elim (tt : TemplateEngine) (cache : Cache) (msg : String)
    (h : generate_java_code tt cache = GenResult.panic msg) :
    build_context cache = none ∧ msg = "values checked at cache creation time" := by
  unfold generate_java_code at h
  cases hb : build_context cache with
  | none =>
      rw [hb] at h
      simp only [GenResult.panic.injEq] at h
      exact ⟨rfl, h.symm⟩
  | some context =>
      rw [hb] at h
      cases h1 : tt.add_template "Flags.java" with
      | error e => rw [h1] at h; exact absurd h (by simp)
      | ok u =>
          cases u
          rw [h1] at h
          cases h2 : tt.add_template "FeatureFlagsImpl.java" with
          | error e => rw [h2] at h; exact absurd h (by simp)
          | ok u =>
              cases u
              rw [h2] at h
              cases h3 : tt.add_template "FeatureFlags.java" with
              | error e => rw [h3] at h; exact absurd h (by simp)
              | ok u =>
                  cases u
                  rw [h3] at h
                  dsimp only at h
                  cases hr : render_all tt context (split cache.package '.') java_files with
                  | error e => rw [hr] at h; exact absurd h (by simp)
                  | ok fs => rw [hr] at h; exact absurd h (by simp)

/-- C1: for every input flag collection, the aggregate `is_read_write`
field of the rendering context built by `generate_java_code` is true if
and only if at least one flag record has permission ReadWrite,
equivalently, if and only if at least one created class element has
`is_read_write = true`. -/
theorem C1_any_read_write (cache : Cache) (ctx : Context)
    (h : build_context cache = some ctx) :
    (ctx.is_read_write = true ↔
      ∃ item ∈ cache.items, item.permission = Permission.ReadWrite) ∧
    (ctx.is_read_write = true ↔
      ∃ el ∈ ctx.class_elements, el.is_read_write = true) := by
  obtain ⟨els, hc, hctx⟩ := build_context_some cache ctx h
  subst hctx
  refine ⟨any_read_write_iff cache.package cache.items els
    (collect_forall2 cache.package cache.items els hc), ?_⟩
  simp [List.any_eq_true]

theorem C1_any_read_write_witness :
    build_context cache0 = some ctx0 ∧
    ((ctx0.is_read_write = true ↔
       ∃ item ∈ cache0.items, item.permission = Permission.ReadWrite) ∧
     (ctx0.is_read_write = true ↔
       ∃ el ∈ ctx0.class_elements, el.is_read_write = true)) :=
  ⟨by decide, C1_any_read_write cache0 ctx0 (by decide)⟩

/-- C2: every successful run of `generate_java_code` returns exactly three
artifacts, in the fixed order Flags.java, FeatureFlagsImpl.java,
FeatureFlags.java, each at the nested relative path obtained by splitting
the package identifier on the dot and appending the fixed file name; the
path list is the same for every flag collection. -/
theorem C2_three_artifacts_fixed_order (tt : TemplateEngine) (cache : Cache)
    (files : List OutputFile)
    (h : generate_java_code tt cache = GenResult.ok files) :
    files.length = 3 ∧
    files.map (fun f => f.path) =
      [split cache.package '.' ++ ["Flags.java"],
       split cache.package '.' ++ ["FeatureFlagsImpl.java"],
       split cache.package '.' ++ ["FeatureFlags.java"]] := by
  obtain ⟨context, hb, h1, h2, h3, hr⟩ := generate_ok_elim tt cache files h
  obtain ⟨c1, c2, c3, hr1, hr2, hr3, hfiles⟩ := render_all_ok tt context _ files hr
  subst hfiles
  exact ⟨rfl, rfl⟩

theorem C2_three_artifacts_fixed_order_witness :
    generate_java_code tt0 cache0 = GenResult.ok files0 ∧
    (files0.length = 3 ∧
     files0.map (fun f => f.path) =
       [split cache0.package '.' ++ ["Flags.java"],
        split cache0.package '.' ++ ["FeatureFlagsImpl.java"],
        split cache0.package '.' ++ ["FeatureFlags.java"]]) :=
  ⟨by decide, C2_three_artifacts_fixed_order tt0 cache0 files0 (by decide)⟩

/-- C3: `generate_java_code` never returns a partial artifact set: a
successful return carries all three artifacts, each produced by a
successful render, and when some fixed template fails to register the run
returns an error whose value does not depend on the render function at
all, i.e. the error arises before any rendering is attempted. -/
theorem C3_no_partial_artifacts (tt : TemplateEngine) (cache : Cache) :
    (∀ files, generate_java_code tt cache = GenResult.ok files →
      files.length = 3 ∧
      ∀ name ∈ java_files, ∃ ctx c, build_context cache = some ctx ∧
        tt.render name ctx = Except.ok c) ∧
    (∀ ctx, build_context cache = some ctx →
      (∃ name ∈ java_files, ∃ e, tt.add_template name = Except.error e) →
      (∃ e, generate_java_code tt cache = GenResult.error e) ∧
      ∀ r, generate_java_code { add_template := tt.add_template, render := r } cache
            = generate_java_code tt cache) := by
  constructor
  · intro files h
    obtain ⟨context, hb, h1, h2, h3, hr⟩ := generate_ok_elim tt cache files h
    obtain ⟨c1, c2, c3, hr1, hr2, hr3, hfiles⟩ := render_all_ok tt context _ files hr
    subst hfiles
    refine ⟨rfl, ?_⟩
    intro name hname
    simp only [java_files, List.mem_cons, List.mem_singleton] at hname
    rcases hname with hm | hm | hm | hm
    · exact hm ▸ ⟨context, c1, hb, hr1⟩
    · exact hm ▸ ⟨context, c2, hb, hr2⟩
    · exact hm ▸ ⟨context, c3, hb, hr3⟩
    · exact absurd hm (by simp)
  · intro ctx hb hfail
    exact generate_add_fail tt cache ctx hb hfail

theorem C3_no_partial_artifacts_witness :
    (∃ e, generate_java_code tt_bad cache0 = GenResult.error e) ∧
    generate_java_code { add_template := tt_bad.add_template, render := tt0.render } cache0
      = generate_java_code tt_bad cache0 :=
  have h := (C3_no_partial_artifacts tt_bad cache0).2 ctx0 (by decide)
    ⟨"FeatureFlagsImpl.java", by decide, "template parse error", rfl⟩
  ⟨h.1, h.2 tt0.render⟩

/-- C4: whenever `create_class_element` succeeds, the derived qualified
identifier `device_config_flag` equals the package identifier, a dot, and
the flag's name. -/
theorem C4_qualified_ident (package : String) (item : Item) (el : ClassElement)
    (h : create_class_element package item = some el) :
    el.device_config_flag = package ++ "." ++ item.name :=
  (create_class_element_fields package item el h).2.2.1

theorem C4_qualified_ident_witness :
    create_class_element "com.android.aconfig.test" item_rw = some el_rw ∧
    el_rw.device_config_flag = "com.android.aconfig.test" ++ "." ++ item_rw.name :=
  ⟨by decide, C4_qualified_ident "com.android.aconfig.test" item_rw el_rw (by decide)⟩

/-- C5: whenever `create_class_element` succeeds, the element's
`default_value` is the string "true" if and only if the record's state is
Enabled, and the string "false" otherwise. -/
theorem C5_default_value (package : String) (item : Item) (el : ClassElement)
    (h : create_class_element package item = some el) :
    (el.default_value = "true" ↔ item.state = FlagState.Enabled) ∧
    (item.state ≠ FlagState.Enabled → el.default_value = "false") := by
  have hd := (create_class_element_fields package item el h).1
  cases hstate : item.state with
  | Enabled =>
      rw [hstate] at hd
      simp at hd
      rw [hd]
      exact ⟨⟨fun _ => rfl, fun _ => rfl⟩, fun habs => absurd rfl habs⟩
  | Disabled =>
      rw [hstate] at hd
      simp at hd
      rw [hd]
      exact ⟨⟨fun habs => absurd habs (by decide), fun habs => absurd habs (by decide)⟩,
        fun _ => rfl⟩

theorem C5_default_value_witness :
    create_class_element "com.android.aconfig.test" item_rw = some el_rw ∧
    ((el_rw.default_value = "true" ↔ item_rw.state = FlagState.Enabled) ∧
     (item_rw.state ≠ FlagState.Enabled → el_rw.default_value = "false")) :=
  ⟨by decide, C5_default_value "com.android.aconfig.test" item_rw el_rw (by decide)⟩

/-- C6: whenever `create_class_element` succeeds, the element's constant
suffix is the flag name folded to uppercase under ASCII case folding only
(characters outside the ASCII lowercase range, in particular every
non-ASCII character, are unchanged), and the namespace and the accessor
name are copied verbatim from the record. -/
theorem C6_constant_suffix_verbatim_fields (package : String) (item : Item) (el : ClassElement)
    (h : create_class_element package item = some el) :
    el.flag_name_constant_suffix = to_ascii_uppercase item.name ∧
    el.device_config_namespace = item.namespace_ ∧
    el.method_name = item.name ∧
    (∀ c : Char, ('a' ≤ c ∧ c ≤ 'z') → asciiUpper c = Char.ofNat (c.toNat - 32)) ∧
    (∀ c : Char, ¬ ('a' ≤ c ∧ c ≤ 'z') → asciiUpper c = c) := by
  have hf := create_class_element_fields package item el h
  refine ⟨hf.2.2.2.1, hf.2.1, hf.2.2.2.2.2, ?_, ?_⟩
  · intro c hc
    unfold asciiUpper
    rw [if_pos hc]
  · intro c hc
    unfold asciiUpper
    rw [if_neg hc]

theorem C6_constant_suffix_verbatim_fields_witness :
    create_class_element "com.android.aconfig.test" item_ro = some el_ro ∧
    (el_ro.flag_name_constant_suffix = to_ascii_uppercase item_ro.name ∧
     el_ro.device_config_namespace = item_ro.namespace_ ∧
     el_ro.method_name = item_ro.name ∧
     (∀ c : Char, ('a' ≤ c ∧ c ≤ 'z') → asciiUpper c = Char.ofNat (c.toNat - 32)) ∧
     (∀ c : Char, ¬ ('a' ≤ c ∧ c ≤ 'z') → asciiUpper c = c)) :=
  ⟨by decide, C6_constant_suffix_verbatim_fields "com.android.aconfig.test" item_ro el_ro (by decide)⟩

/-- C7: the element sequence of the rendering context built by
`generate_java_code` has exactly one element per flag record, in exactly
the input iteration order of the flag collection: the two lists are
related pointwise, so there is no re-sorting, omission or duplication. -/
theorem C7_elements_in_input_order (cache : Cache) (ctx : Context)
    (h : build_context cache = some ctx) :
    ctx.class_elements.length = cache.items.length ∧
    List.Forall₂ (fun item el => create_class_element cache.package item = some el)
      cache.items ctx.class_elements := by
  obtain ⟨els, hc, hctx⟩ := build_context_some cache ctx h
  subst hctx
  have hf := collect_forall2 cache.package cache.items els hc
  exact ⟨hf.length_eq.symm, hf⟩

theorem C7_elements_in_input_order_witness :
    build_context cache0 = some ctx0 ∧
    (ctx0.class_elements.length = cache0.items.length ∧
     List.Forall₂ (fun item el => create_class_element cache0.package item = some el)
       cache0.items ctx0.class_elements) :=
  ⟨by decide, C7_elements_in_input_order cache0 ctx0 (by decide)⟩

/-- C8: `generate_java_code` is deterministic: two invocations on caches
with the same package identifier and the same flag records in the same
order produce identical results, artifact for artifact, paths and contents
included, or identical failures. -/
theorem C8_deterministic (tt : TemplateEngine) (c1 c2 : Cache)
    (hpkg : c1.package = c2.package) (hitems : c1.items = c2.items) :
    generate_java_code tt c1 = generate_java_code tt c2 := by
  cases c1 with
  | mk p1 i1 =>
      cases c2 with
      | mk p2 i2 =>
          dsimp only at hpkg hitems
          subst hpkg
          subst hitems
          rfl

theorem C8_deterministic_witness :
    cache0.package = cache0_again.package ∧ cache0.items = cache0_again.items ∧
    generate_java_code tt0 cache0 = generate_java_code tt0 cache0_again :=
  ⟨by decide, by decide, C8_deterministic tt0 cache0 cache0_again (by decide) (by decide)⟩

/-- C9 counterexample: on a cache holding a flag whose identifier
derivation fails (an empty name, despite upstream validation), the call
does not return a generation-failure value at all: it terminates by the
panic of the `.expect` in `create_class_element`. -/
theorem C9_contract_violation_panics :
    generate_java_code tt0 bad_cache
      = GenResult.panic "values checked at cache creation time" := by decide

/-- C9 (amended): when identifier derivation succeeds for every flag, the
call always returns, either all three artifacts or a single error value
passed through verbatim from the template engine, in particular not tagged
with the package identifier; when identifier derivation fails for some
flag, the call terminates by panic instead of returning a failure value. -/
theorem C9_failure_surface (tt : TemplateEngine) (cache : Cache) :
    (∀ ctx, build_context cache = some ctx →
      (∃ files, generate_java_code tt cache = GenResult.ok files) ∨
      (∃ e, generate_java_code tt cache = GenResult.error e ∧
        ((∃ name ∈ java_files, tt.add_template name = Except.error e) ∨
         (∃ name ∈ java_files, tt.render name ctx = Except.error e)))) ∧
    (build_context cache = none →
      generate_java_code tt cache = GenResult.panic "values checked at cache creation time") := by
  constructor
  · intro ctx hb
    cases hg : generate_java_code tt cache with
    | ok files => exact Or.inl ⟨files, rfl⟩
    | error e =>
        obtain ⟨ctx', hb', hsrc⟩ := generate_error_elim tt cache e hg
        rw [hb] at hb'
        injection hb' with hceq
        subst hceq
        exact Or.inr ⟨e, rfl, hsrc⟩
    | panic msg =>
        obtain ⟨hnone, _⟩ := generate_panic_elim tt cache msg hg
        rw [hb] at hnone
        exact absurd hnone (by simp)
  · intro hnone
    unfold generate_java_code
    rw [hnone]

theorem C9_failure_surface_witness :
    build_context cache0 = some ctx0 ∧
    ((∃ files, generate_java_code tt_bad cache0 = GenResult.ok files) ∨
     (∃ e, generate_java_code tt_bad cache0 = GenResult.error e ∧
       ((∃ name ∈ java_files, tt_bad.add_template name = Except.error e) ∨
        (∃ name ∈ java_files, tt_bad.render name ctx0 = Except.error e)))) :=
  ⟨by decide, (C9_failure_surface tt_bad cache0).1 ctx0 (by decide)⟩

/-- C10: for a cache with an empty flag collection, the context is still
built, with `is_read_write` false and no elements, and when all templates
register and render successfully the run still returns exactly three
artifacts with the fixed file names. -/
theorem C10_empty_collection (tt : TemplateEngine) (package : String) :
    build_context { package := package, items := [] } =
      some { package_name := package, is_read_write := false, class_elements := [] } ∧
    ((∀ name ∈ java_files, tt.add_template name = Except.ok ()) →
     (∀ name ∈ java_files, ∃ s, tt.render name
        { package_name := package, is_read_write := false, class_elements := [] }
          = Except.ok s) →
     ∃ files, generate_java_code tt { package := package, items := [] } = GenResult.ok files ∧
       files.map (fun f => f.path) =
         [split package '.' ++ ["Flags.java"],
          split package '.' ++ ["FeatureFlagsImpl.java"],
          split package '.' ++ ["FeatureFlags.java"]]) := by
  constructor
  · rfl
  · intro hadd hrender
    have hb : build_context { package := package, items := [] } =
        some { package_name := package, is_read_write := false, class_elements := [] } := rfl
    obtain ⟨s1, hs1⟩ := hrender "Flags.java" (by simp [java_files])
    obtain ⟨s2, hs2⟩ := hrender "FeatureFlagsImpl.java" (by simp [java_files])
    obtain ⟨s3, hs3⟩ := hrender "FeatureFlags.java" (by simp [java_files])
    have h1 := hadd "Flags.java" (by simp [java_files])
    have h2 := hadd "FeatureFlagsImpl.java" (by simp [java_files])
    have h3 := hadd "FeatureFlags.java" (by simp [java_files])
    refine ⟨[{ contents := s1, path := split package '.' ++ ["Flags.java"] },
             { contents := s2, path := split package '.' ++ ["FeatureFlagsImpl.java"] },
             { contents := s3, path := split package '.' ++ ["FeatureFlags.java"] }], ?_, ?_⟩
    · unfold generate_java_code
      rw [hb]
      dsimp only
      rw [h1, h2, h3]
      dsimp only
      rw [render_all_ok_intro tt _ (split package '.') s1 s2 s3 hs1 hs2 hs3]
    · rfl

theorem C10_empty_collection_witness :
    ∃ files,
      generate_java_code tt0 { package := "com.android.aconfig.test", items := [] }
        = GenResult.ok files ∧
      files.map (fun f => f.path) =
        [split "com.android.aconfig.test" '.' ++ ["Flags.java"],
         split "com.android.aconfig.test" '.' ++ ["FeatureFlagsImpl.java"],
         split "com.android.aconfig.test" '.' ++ ["FeatureFlags.java"]] :=
  (C10_empty_collection tt0 "com.android.aconfig.test").2
    (fun _ _ => rfl) (fun _ _ => ⟨"rendered", rfl⟩)

end Aconfig
